import Mathlib

/-!
Verification development for the bulk user-synchronization client of the
jairocloud-groups-manager repository.

The definitions below are a shallow embedding of the TypeScript composables
and components that implement the bulk-upload pipeline:

* `useUserUpload` (validation/execution result fetching, summary state,
  orphan-user selection state, execute request, reset);
* the review step component (category filters, pagination, orphan-user
  selection handlers, the `canProceed` gate and `handleNext`);
* the polling loops `pollValidationStatus` / `pollExecuteStatus`;
* `useBulk.makeStatusFilters` (query-driven filter select);
* `useHistory` (`computeEffectiveTotal` and the history fetchers).

Network effects are modeled by passing the server response (or a fetch
error) as an explicit argument; reactive state is modeled as explicit
record-passing.  JS numbers appearing as counts/indices are modeled as
`Nat`, except in `computeEffectiveTotal` where `currentPage - 1` can go
negative, hence `Int`.
-/

namespace JGM

/-- Per-category counts as reported by the server in the `summary` object of
the validation-result and upload-result responses. -/
structure CategoryCounts where
  create : Nat
  update : Nat
  delete : Nat
  skip : Nat
  error : Nat
  deriving Repr, DecidableEq

/-- One element of `results` in the `/api/bulk/validate/result` response. -/
structure ServerValidationRow where
  id : String
  eppn : List String
  emails : List String
  userName : String
  groups : List String
  status : String
  code : String
  deriving Repr, DecidableEq

/-- A group reference inside a server-reported missing user
(`{ id, displayName, ... }`). -/
structure ServerGroupRef where
  id : String
  displayName : Option String
  deriving Repr, DecidableEq

/-- One element of `missingUser` in the `/api/bulk/validate/result`
response. -/
structure ServerMissingUser where
  id : String
  eppns : List String
  userName : String
  emails : List String
  groups : List ServerGroupRef
  deriving Repr, DecidableEq

/-- The `/api/bulk/validate/result` response body consumed by
`fetchValidationResults`. -/
structure ValidationResponse where
  results : List ServerValidationRow
  summary : CategoryCounts
  missingUser : List ServerMissingUser
  deriving Repr, DecidableEq

/-- Client-side validation row (`ValidationResult` in `types/bulks`): the
mapped row stored in `validationResults.value`, carrying the display row
number. -/
structure ValidationResult where
  row : Nat
  id : String
  status : String
  userName : String
  email : List String
  eppn : List String
  groups : List String
  code : String
  deriving Repr, DecidableEq

/-- Client-side orphan user (`MissingUser` in `types/bulks`): the mapped
entry stored in `MissingUsers.value`. -/
structure MissingUser where
  id : String
  name : String
  eppn : String
  groups : List String
  deriving Repr, DecidableEq

/-- A dynamic JS value stored in the `selectedMissingUsers` array.  The
state is declared `string[]`, and `toggleMissingUser` pushes id strings,
but `selectAllMissingUsers` assigns the `MissingUser` objects themselves
(`selectedMissingUsers.value = MissingUsers.value`), so at runtime the
array can hold either shape; the embedding keeps both. -/
inductive SelEntry where
  | str (s : String)
  | user (u : MissingUser)
  deriving Repr, DecidableEq

/-- The `summary` state of `useUserUpload`: derived total plus the
per-category counts. -/
structure Summary where
  total : Nat
  status : CategoryCounts
  deriving Repr, DecidableEq

/-- One element of `results` in the `/api/bulk/result` response. -/
structure ServerUploadRow where
  id : String
  eppn : List String
  emails : List String
  userName : String
  groups : List String
  operation : String
  status : String
  message : Option String
  code : Option String
  deriving Repr, DecidableEq

/-- The optional `fileInfo` object of the `/api/bulk/result` response. -/
structure FileInfo where
  fileName : String
  startedAt : String
  completedAt : String
  executedBy : String
  deriving Repr, DecidableEq

/-- The `/api/bulk/result` response body consumed by `fetchUploadtResult`. -/
structure UploadResultResponse where
  results : List ServerUploadRow
  summary : CategoryCounts
  fileInfo : Option FileInfo
  deriving Repr, DecidableEq

/-- One mapped execution-result row stored inside `importResult.value`. -/
structure ImportRow where
  id : String
  row : Nat
  eppn : List String
  emails : List String
  userName : String
  groups : List String
  operation : String
  status : String
  message : Option String
  code : Option String
  deriving Repr, DecidableEq

/-- The derived execution summary stored inside `importResult.value`
(`ImportResultResponse.summary` in `types/bulks`): note it has `failed`
(set from the server's `error` count) instead of an `error` field. -/
structure ImportSummary where
  total : Nat
  success : Nat
  failed : Nat
  create : Nat
  update : Nat
  delete : Nat
  skip : Nat
  deriving Repr, DecidableEq

/-- The value stored in `importResult.value` after a successful
`fetchUploadtResult`. -/
structure ImportResultResponse where
  results : List ImportRow
  summary : ImportSummary
  fileInfo : Option FileInfo
  deriving Repr, DecidableEq

/-- The reactive state owned by the `useUserUpload` composable
(`useState` slots keyed `userUpload:*`).  Files are tracked by name only;
their contents play no role in the claims. -/
structure UploadState where
  selectedFile : Option String
  selectedRepository : Option String
  validationResults : List ValidationResult
  MissingUsers : List MissingUser
  selectedMissingUsers : List SelEntry
  temporaryFileId : Option String
  summary : Summary
  isProcessing : Bool
  taskId : Option String
  importResult : Option ImportResultResponse
  deriving Repr, DecidableEq

/-- Initial values of the `useUserUpload` state slots. -/
def initialUploadState : UploadState :=
  { selectedFile := none
    selectedRepository := none
    validationResults := []
    MissingUsers := []
    selectedMissingUsers := []
    temporaryFileId := none
    summary := { total := 0, status := { create := 0, update := 0, delete := 0, skip := 0, error := 0 } }
    isProcessing := false
    taskId := none
    importResult := none }

/-- A failed `$fetch`: transport failure or a server-side error response.
`$fetch` throws either kind; the composables' catch blocks log and
rethrow, so the caller can distinguish them. -/
inductive FetchError where
  | network (message : String)
  | server (statusCode : Nat) (message : String)
  deriving Repr, DecidableEq

/-- JS `a || b` on an optional string: `b` when `a` is absent or empty
(empty strings are falsy). -/
def jsOrElse (a : Option String) (b : String) : String :=
  match a with
  | some s => if s = "" then b else s
  | none => b

/-- The mapping applied to each server validation row by
`fetchValidationResults`:
`row: pageIndex * pageSize + index + 1` plus field copies. -/
def mapValidationRow (pageIndex pageSize index : Nat) (item : ServerValidationRow) :
    ValidationResult :=
  { row := pageIndex * pageSize + index + 1
    id := item.id
    status := item.status
    userName := item.userName
    email := item.emails
    eppn := item.eppn
    groups := item.groups
    code := item.code }

/-- The mapping applied to each server missing user by
`fetchValidationResults`: `eppn: user.eppns[0] || ''` and
`groups: user.groups.map(g => g.displayName || g.id)`. -/
def mapMissingUser (user : ServerMissingUser) : MissingUser :=
  { id := user.id
    name := user.userName
    eppn := jsOrElse user.eppns.head? ""
    groups := user.groups.map (fun g => jsOrElse g.displayName g.id) }

/-- The total computed by both fetchers:
`create + update + delete + skip + error` over the server summary. -/
def summaryTotal (c : CategoryCounts) : Nat :=
  c.create + c.update + c.delete + c.skip + c.error

/-- `fetchValidationResults(taskIdValue, queryParameters)` of
`useUserUpload`.  `pageIndex`/`pageSize` are the parsed `p` (default 0)
and `l` (default 10) query parameters; any `f` category-filter parameters
only change the URL, i.e. which response the server returns, which the
embedding captures by taking the response as an argument.  All state
mutations happen after the awaited fetch succeeded; on a fetch error the
catch block logs and rethrows, leaving the state untouched. -/
def fetchValidationResults (st : UploadState) (pageIndex pageSize : Nat)
    (response : Except FetchError ValidationResponse) :
    UploadState × Except FetchError ValidationResponse :=
  match response with
  | .error e => (st, .error e)
  | .ok result =>
    ({ st with
        validationResults :=
          result.results.mapIdx (fun index item => mapValidationRow pageIndex pageSize index item)
        MissingUsers := result.missingUser.map mapMissingUser
        summary := { total := summaryTotal result.summary, status := result.summary } },
      .ok result)

/-- The derived execution summary built by `fetchUploadtResult` from the
server's per-category counts. -/
def importSummaryOf (sv : CategoryCounts) : ImportSummary :=
  { total := sv.create + sv.update + sv.delete + sv.skip + sv.error
    success := sv.create + sv.update + sv.delete
    failed := sv.error
    create := sv.create
    update := sv.update
    delete := sv.delete
    skip := sv.skip }

/-- The mapping applied to each server upload-result row by
`fetchUploadtResult`. -/
def mapImportRow (pageIndex pageSize index : Nat) (item : ServerUploadRow) : ImportRow :=
  { id := item.id
    row := pageIndex * pageSize + index + 1
    eppn := item.eppn
    emails := item.emails
    userName := item.userName
    groups := item.groups
    operation := item.operation
    status := item.status
    message := item.message
    code := item.code }

/-- `fetchUploadtResult(historyIdValue, queryParameters)` of
`useUserUpload`: builds `importResult.value` from the response; on a
fetch error the catch block logs and rethrows without mutating state. -/
def fetchUploadtResult (st : UploadState) (pageIndex pageSize : Nat)
    (response : Except FetchError UploadResultResponse) :
    UploadState × Except FetchError ImportResultResponse :=
  match response with
  | .error e => (st, .error e)
  | .ok result =>
    let ir : ImportResultResponse :=
      { results :=
          result.results.mapIdx (fun index item => mapImportRow pageIndex pageSize index item)
        summary := importSummaryOf result.summary
        fileInfo := result.fileInfo }
    ({ st with importResult := some ir }, .ok ir)

/-- `resetUpload()` of `useUserUpload` (it does not touch
`isProcessing`). -/
def resetUpload (st : UploadState) : UploadState :=
  { st with
      selectedFile := none
      selectedRepository := none
      validationResults := []
      MissingUsers := []
      selectedMissingUsers := []
      taskId := none
      importResult := none
      temporaryFileId := none
      summary := { total := 0, status := { create := 0, update := 0, delete := 0, skip := 0, error := 0 } } }

/-- `selectAllMissingUsers()` of the review step:
`selectedMissingUsers.value = MissingUsers.value` — the `MissingUser`
objects themselves are written into the (string-typed) selection array. -/
def selectAllMissingUsers (st : UploadState) : UploadState :=
  { st with selectedMissingUsers := st.MissingUsers.map SelEntry.user }

/-- `deselectAllMissingUsers()` of the review step. -/
def deselectAllMissingUsers (st : UploadState) : UploadState :=
  { st with selectedMissingUsers := [] }

/-- `toggleMissingUser(userId)` of the review step: `indexOf(userId)`
(strict equality, so only a string entry equal to `userId` matches) then
`splice(index, 1)` (remove the first occurrence) or `push(userId)`. -/
def toggleMissingUser (st : UploadState) (userId : String) : UploadState :=
  if SelEntry.str userId ∈ st.selectedMissingUsers then
    { st with selectedMissingUsers := st.selectedMissingUsers.erase (SelEntry.str userId) }
  else
    { st with selectedMissingUsers := st.selectedMissingUsers ++ [SelEntry.str userId] }

/-- The claim's selection invariant: every entry of the selection is the
id of a user in the current `MissingUsers` collection. -/
def selectionSubsetOfIds (st : UploadState) : Prop :=
  ∀ e ∈ st.selectedMissingUsers, ∃ u ∈ st.MissingUsers, e = SelEntry.str u.id

instance (st : UploadState) : Decidable (selectionSubsetOfIds st) := by
  unfold selectionSubsetOfIds
  exact List.decidableBAll _ _

/-- `canProceed` of the review step:
`computed(() => summary.value.status.error === 0)`. -/
def canProceed (st : UploadState) : Bool :=
  st.summary.status.error == 0

/-- The body of the POST to `/api/bulk/execute` built by `executeUpload`. -/
structure ExecuteRequestBody where
  task_id : String
  temp_file_id : Option String
  repository_id : String
  delete_users : List SelEntry
  deriving Repr, DecidableEq

/-- The request-building half of `executeUpload()`: it throws
`'Missing required data'` before any network call when `taskId` or
`selectedRepository` is unset, otherwise it issues the execute POST with
the current selection as `delete_users`. -/
def executeUploadRequest (st : UploadState) : Except String ExecuteRequestBody :=
  match st.taskId, st.selectedRepository with
  | some t, some r =>
    .ok { task_id := t
          temp_file_id := st.temporaryFileId
          repository_id := r
          delete_users := st.selectedMissingUsers }
  | _, _ => .error "Missing required data"

/-- `handleNext()` of the review step: `if (!canProceed.value) return`
refuses locally (no call into `executeUpload`, hence no network
request); otherwise `executeUpload()` is invoked, modeled by its
request-building result. -/
def handleNext (st : UploadState) : Option (Except String ExecuteRequestBody) :=
  if canProceed st then some (executeUploadRequest st) else none

/-- Number of network requests issued by one `handleNext` call before/at
the execute POST: zero when refused locally or when `executeUpload`
throws before fetching, one when the execute POST goes out. -/
def handleNextRequestCount (st : UploadState) : Nat :=
  match handleNext st with
  | none => 0
  | some (.error _) => 0
  | some (.ok _) => 1

/-- The `/api/bulk/validate/status/...` and `/api/bulk/execute/status/...`
response observed by one poll iteration: `res.status` and `res.error`,
either possibly absent. -/
structure StatusResponse where
  status : Option String
  error : Option String
  deriving Repr, DecidableEq

/-- Outcome of a polling loop: normal return, thrown job failure (with
the message `res.error ?? 'Validation task failed'`), or the thrown
`'Validation timeout'` after the loop exhausts its attempts. -/
inductive PollOutcome where
  | success
  | jobFailure (detail : String)
  | timeout
  deriving Repr, DecidableEq

/-- Whether an observed status ends the loop:
`st === 'SUCCESS' || st === 'FAILURE'`. -/
def isTerminalObs (r : StatusResponse) : Bool :=
  r.status == some "SUCCESS" || r.status == some "FAILURE"

/-- What the loop does at a terminal observation: return on SUCCESS,
throw `res.error ?? 'Validation task failed'` on FAILURE. -/
def terminalOutcome (r : StatusResponse) : PollOutcome :=
  if r.status = some "SUCCESS" then PollOutcome.success
  else PollOutcome.jobFailure (r.error.getD "Validation task failed")

/-- The shared polling loop body of `pollValidationStatus` (upload step)
and `pollExecuteStatus` (`useUserUpload`) — the two functions are
line-for-line identical: `for (index = 0; index < maxAttempts; index++)`
fetch the status; return on SUCCESS; throw on FAILURE; otherwise sleep
`interval` and continue; after the loop throw `'Validation timeout'`.
`observe i` is the response of the `(i+1)`-th status query; the result
pairs the outcome with the number of status queries issued. -/
def pollGo (observe : Nat → StatusResponse) (index : Nat) : Nat → PollOutcome × Nat
  | 0 => (PollOutcome.timeout, 0)
  | remaining + 1 =>
    let res := observe index
    if res.status = some "SUCCESS" then (PollOutcome.success, 1)
    else if res.status = some "FAILURE" then
      (PollOutcome.jobFailure (res.error.getD "Validation task failed"), 1)
    else
      let rest := pollGo observe (index + 1) remaining
      (rest.1, rest.2 + 1)

/-- `pollValidationStatus(taskId)` of the upload step, generalized over
the attempt cap (the source fixes `maxAttempts = 100`, `interval =
2000`; the interval only paces the queries). -/
def pollValidationStatus (observe : Nat → StatusResponse) (maxAttempts : Nat) :
    PollOutcome × Nat :=
  pollGo observe 0 maxAttempts

/-- `pollExecuteStatus(uploadTaskId)` of `useUserUpload`, generalized
over the attempt cap exactly as `pollValidationStatus`. -/
def pollExecuteStatus (observe : Nat → StatusResponse) (maxAttempts : Nat) :
    PollOutcome × Nat :=
  pollGo observe 0 maxAttempts

/-- The attempt cap hard-coded in both polling loops. -/
def sourceMaxAttempts : Nat := 100

/-- A status endpoint that reports PENDING on every query. -/
def pendingForever : Nat → StatusResponse :=
  fun _ => { status := some "PENDING", error := none }

/-- The `StatusType` union of `types/bulks`:
`'create' | 'update' | 'delete' | 'skip' | 'error'`. -/
inductive StatusType where
  | create
  | update
  | delete
  | skip
  | error
  deriving Repr, DecidableEq

/-- String form of a `StatusType` (the union members are string
literals). -/
def statusTypeToString : StatusType → String
  | .create => "create"
  | .update => "update"
  | .delete => "delete"
  | .skip => "skip"
  | .error => "error"

/-- The `pagination` ref of the review step:
`{ pageIndex: 0, pageSize: 10 }`. -/
structure PageState where
  pageIndex : Nat
  pageSize : Nat
  deriving Repr, DecidableEq

/-- The local state of the review step component relevant to filtering:
its `pagination` ref and its `selectedFilters` ref. -/
structure ValidateStepState where
  pagination : PageState
  selectedFilters : List StatusType
  deriving Repr, DecidableEq

/-- `toggleFilter(filterValue)` of the review step: `indexOf` then
`splice(index, 1)` (remove the first occurrence) or `push`, followed by
`pagination.value.pageIndex = 0`. -/
def toggleFilter (st : ValidateStepState) (filterValue : StatusType) : ValidateStepState :=
  let sel :=
    if filterValue ∈ st.selectedFilters then st.selectedFilters.erase filterValue
    else st.selectedFilters ++ [filterValue]
  { pagination := { st.pagination with pageIndex := 0 }, selectedFilters := sel }

/-- `selectAllFilters()` of the review step: clear the filter list
(empty = "show all") and set `pagination.value.pageIndex = 0`. -/
def selectAllFilters (st : ValidateStepState) : ValidateStepState :=
  { pagination := { st.pagination with pageIndex := 0 }, selectedFilters := [] }

/-- The route-query object manipulated by `useBulk`:
the `f` (status filters), `p` (page number, 1-based — the
`UPagination` in `BulkUserTable` binds `v-model:page` and writes it via
`updateQuery({ p: value })`), `l` (page size) and `d` (sort) members. -/
structure UploadQuery where
  f : List String
  p : Nat
  l : Nat
  d : Option String
  deriving Repr, DecidableEq

/-- The `onUpdated` handler produced by `useBulk.makeStatusFilters` for
the filter select: `updateQuery({ f: selectedValues.map(String), p: 1 })`
merged into the current query. -/
def statusFilterOnUpdated (q : UploadQuery) (values : List StatusType) : UploadQuery :=
  { q with f := values.map statusTypeToString, p := 1 }

/-- The `pagination` object of a history API response; `total` is kept
optional because the fallback path exists precisely for responses where
`typeof pg?.total === 'number'` fails. -/
structure HistoryPagination where
  total : Option Int
  deriving Repr, DecidableEq

/-- `pg?.total` as a number, for `pg` an optional pagination object. -/
def serverTotal (pg : Option HistoryPagination) : Option Int :=
  pg.bind (fun x => x.total)

/-- One element of `download_history_data` in the `/api/history/download`
response (fields relevant to the fetcher's list/total logic). -/
structure DownloadHistoryRow where
  id : String
  file_id : Option String
  children_count : Option Int
  deriving Repr, DecidableEq

/-- One group built by `fetchDownloadHistory` from a parent row. -/
structure DownloadGroupItem where
  parent : DownloadHistoryRow
  children : List DownloadHistoryRow
  hasMoreChildren : Bool
  childrenLimit : Nat
  deriving Repr, DecidableEq

/-- The `/api/history/download` response body (list plus optional
pagination metadata). -/
structure DownloadApiModel where
  download_history_data : List DownloadHistoryRow
  pagination : Option HistoryPagination
  deriving Repr, DecidableEq

/-- One element of `upload_history_data` in the `/api/history/upload`
response; `users`/`groups` may be absent, which the fetcher normalizes
to empty arrays. -/
structure UploadApiRow where
  id : String
  users : Option (List String)
  groups : Option (List String)
  deriving Repr, DecidableEq

/-- A normalized upload-history row as stored in `uploadRows.value`. -/
structure UploadHistoryData where
  id : String
  users : List String
  groups : List String
  deriving Repr, DecidableEq

/-- The `/api/history/upload` response body. -/
structure UploadApiModel where
  upload_history_data : List UploadApiRow
  pagination : Option HistoryPagination
  deriving Repr, DecidableEq

/-- `computeEffectiveTotal(itemsLength, currentPage, itemsPerPage)` of
`useHistory`: `base = (currentPage - 1) * itemsPerPage + itemsLength`
plus one exactly when `itemsPerPage === itemsLength`.  `Int` because
`currentPage - 1` is ordinary JS subtraction. -/
def computeEffectiveTotal (itemsLength currentPage itemsPerPage : Int) : Int :=
  let base := (currentPage - 1) * itemsPerPage + itemsLength
  base + (if itemsPerPage = itemsLength then 1 else 0)

/-- The group list built by `fetchDownloadHistory` from the response:
`list.map(p => ({ parent: p, children: [], hasMoreChildren:
(p.children_count ?? 0) > 0, childrenLimit: 0 }))`. -/
def downloadGroupsOf (payload : DownloadApiModel) : List DownloadGroupItem :=
  payload.download_history_data.map (fun p =>
    { parent := p
      children := []
      hasMoreChildren := decide ((p.children_count.getD 0) > 0)
      childrenLimit := 0 })

/-- The `totalItems` assignment of `fetchDownloadHistory`: the server's
numeric `pagination.total` when present, otherwise
`computeEffectiveTotal(downloadGroups.value.length, currentPage,
itemsPerPage)`. -/
def fetchDownloadHistoryTotalItems (payload : DownloadApiModel)
    (currentPage itemsPerPage : Int) : Int :=
  match serverTotal payload.pagination with
  | some t => t
  | none =>
    computeEffectiveTotal ((downloadGroupsOf payload).length : Int) currentPage itemsPerPage

/-- The row list built by `fetchUploadHistory`:
`list.map(row => ({ ...row, users: Array.isArray(row.users) ? row.users
: [], groups: ... }))`. -/
def uploadRowsOf (payload : UploadApiModel) : List UploadHistoryData :=
  payload.upload_history_data.map (fun row =>
    { id := row.id, users := row.users.getD [], groups := row.groups.getD [] })

/-- The `totalItems` assignment of `fetchUploadHistory`: the server's
numeric `pagination.total` when present, otherwise
`computeEffectiveTotal(uploadRows.value.length, currentPage,
itemsPerPage)`. -/
def fetchUploadHistoryTotalItems (payload : UploadApiModel)
    (currentPage itemsPerPage : Int) : Int :=
  match serverTotal payload.pagination with
  | some t => t
  | none =>
    computeEffectiveTotal ((uploadRowsOf payload).length : Int) currentPage itemsPerPage

/-- The summary invariant of the `useUserUpload` summary state: the
derived total equals the sum of the five per-category counts. -/
def summaryTotalOk (s : Summary) : Prop :=
  s.total = s.status.create + s.status.update + s.status.delete + s.status.skip + s.status.error

/-- The corresponding invariant for the derived execution summary, whose
error-category count is stored in its `failed` field. -/
def importSummaryTotalOk (s : ImportSummary) : Prop :=
  s.total = s.create + s.update + s.delete + s.skip + s.failed

/-- The whole-state summary invariant: the validation summary satisfies
its total equation, and so does the execution summary whenever an
`importResult` is stored. -/
def stateSummaryOk (st : UploadState) : Prop :=
  summaryTotalOk st.summary ∧
    ∀ ir, st.importResult = some ir → importSummaryTotalOk ir.summary

/-- Demo status endpoint: PENDING for the first two queries, SUCCESS from
the third on. -/
def obsDemo : Nat → StatusResponse :=
  fun i =>
    if i < 2 then { status := some "PENDING", error := none }
    else { status := some "SUCCESS", error := none }

/-- Scenario-A-like summary with one error
(`{create:3, update:1, delete:0, skip:2, error:1}`). -/
def errorStateDemo : UploadState :=
  { initialUploadState with
      summary := { total := 7, status := { create := 3, update := 1, delete := 0, skip := 2, error := 1 } }
      taskId := some "task-1"
      selectedRepository := some "repo-1" }

/-- Scenario-A summary with zero errors and the data `executeUpload`
needs. -/
def cleanStateDemo : UploadState :=
  { initialUploadState with
      summary := { total := 6, status := { create := 3, update := 1, delete := 0, skip := 2, error := 0 } }
      taskId := some "task-1"
      selectedRepository := some "repo-1" }

/-- A small validation response used to instantiate fetch theorems. -/
def demoValidationPayload : ValidationResponse :=
  { results :=
      [ { id := "r1", eppn := ["e1"], emails := ["a@example.org"], userName := "n1",
          groups := ["g1"], status := "create", code := "" } ]
    summary := { create := 3, update := 1, delete := 0, skip := 2, error := 0 }
    missingUser := [] }

/-- An orphan user as stored client-side. -/
def missingUserDemo : MissingUser :=
  { id := "u1", name := "User One", eppn := "u1@example.org", groups := [] }

/-- A different orphan user as reported by the server in a later fetch. -/
def serverMissingUserDemo : ServerMissingUser :=
  { id := "u2", eppns := ["u2@example.org"], userName := "User Two", emails := [], groups := [] }

/-- State whose orphan collection holds one user and whose selection is
empty. -/
def C5StateWithUsers : UploadState :=
  { initialUploadState with MissingUsers := [missingUserDemo] }

/-- State whose selection holds the id of the one current orphan user. -/
def C5StateWithSelection : UploadState :=
  { initialUploadState with
      MissingUsers := [missingUserDemo]
      selectedMissingUsers := [SelEntry.str "u1"] }

/-- A validation response whose orphan collection replaces `u1` by `u2`. -/
def C5ReplacementPayload : ValidationResponse :=
  { results := []
    summary := { create := 0, update := 0, delete := 0, skip := 0, error := 0 }
    missingUser := [serverMissingUserDemo] }

/-- A two-row download-history response without pagination metadata. -/
def downloadPayloadDemo : DownloadApiModel :=
  { download_history_data := [ { id := "d1", file_id := none, children_count := none },
                               { id := "d2", file_id := none, children_count := none } ]
    pagination := none }

/-- A two-row upload-history response without pagination metadata. -/
def uploadPayloadDemo : UploadApiModel :=
  { upload_history_data := [ { id := "h1", users := none, groups := none },
                             { id := "h2", users := none, groups := none } ]
    pagination := none }

/-- A small upload-result response used to instantiate fetch theorems. -/
def demoUploadPayload : UploadResultResponse :=
  { results :=
      [ { id := "r1", eppn := ["e1"], emails := ["a@example.org"], userName := "n1",
          groups := ["g1"], operation := "create", status := "success",
          message := none, code := none } ]
    summary := { create := 1, update := 0, delete := 0, skip := 0, error := 0 }
    fileInfo := none }

/-! ## Helper lemmas -/

theorem isTerminalObs_false_iff (r : StatusResponse) :
    isTerminalObs r = false ↔ r.status ≠ some "SUCCESS" ∧ r.status ≠ some "FAILURE" := by
  simp [isTerminalObs]

theorem isTerminalObs_true_iff (r : StatusResponse) :
    isTerminalObs r = true ↔ r.status = some "SUCCESS" ∨ r.status = some "FAILURE" := by
  simp [isTerminalObs]

theorem pollGo_timeout (observe : Nat → StatusResponse) (remaining : Nat) :
    ∀ index : Nat, (∀ k, k < remaining → isTerminalObs (observe (index + k)) = false) →
      pollGo observe index remaining = (PollOutcome.timeout, remaining) := by
  induction remaining with
  | zero => intro index _; rfl
  | succ n ih =>
    intro index h
    have h0 := (isTerminalObs_false_iff _).1 (by simpa using h 0 (Nat.succ_pos n))
    have hrec := ih (index + 1) (fun k hk => by
      have hb := h (k + 1) (Nat.succ_lt_succ hk)
      have e : index + (k + 1) = index + 1 + k := by omega
      rwa [e] at hb)
    simp only [pollGo]
    rw [if_neg h0.1, if_neg h0.2, hrec]

theorem pollGo_first_terminal (observe : Nat → StatusResponse) (i : Nat) :
    ∀ remaining index : Nat, i < remaining →
      (∀ k, k < i → isTerminalObs (observe (index + k)) = false) →
      isTerminalObs (observe (index + i)) = true →
      pollGo observe index remaining = (terminalOutcome (observe (index + i)), i + 1) := by
  induction i with
  | zero =>
    intro remaining index hlt _ hterm
    cases remaining with
    | zero => omega
    | succ n =>
      simp only [Nat.add_zero] at hterm ⊢
      rcases (isTerminalObs_true_iff _).1 hterm with hs | hf
      · simp only [pollGo]
        rw [if_pos hs]
        simp [terminalOutcome, hs]
      · have hns : (observe index).status ≠ some "SUCCESS" := by simp [hf]
        simp only [pollGo]
        rw [if_neg hns, if_pos hf]
        simp [terminalOutcome, hf]
  | succ i ih =>
    intro remaining index hlt hbefore hterm
    cases remaining with
    | zero => omega
    | succ n =>
      have h0 := (isTerminalObs_false_iff _).1 (by simpa using hbefore 0 (Nat.succ_pos i))
      have hrec := ih n (index + 1) (by omega)
        (fun k hk => by
          have hb := hbefore (k + 1) (Nat.succ_lt_succ hk)
          have e : index + (k + 1) = index + 1 + k := by omega
          rwa [e] at hb)
        (by
          have e : index + (i + 1) = index + 1 + i := by omega
          rwa [e] at hterm)
      simp only [pollGo]
      rw [if_neg h0.1, if_neg h0.2, hrec]
      have e : index + 1 + i = index + (i + 1) := by omega
      rw [e]

theorem pollGo_queries_le (observe : Nat → StatusResponse) (remaining : Nat) :
    ∀ index : Nat, (pollGo observe index remaining).2 ≤ remaining := by
  induction remaining with
  | zero => intro index; simp [pollGo]
  | succ n ih =>
    intro index
    simp only [pollGo]
    split
    · simp
    · split
      · simp
      · simpa using Nat.succ_le_succ (ih (index + 1))

theorem mapIdx_map_row_eq_range {α β : Type} (f : Nat → α → β) (g : β → Nat) (base : Nat)
    (h : ∀ i a, g (f i a) = base + i + 1) (l : List α) :
    (l.mapIdx f).map g = (List.range l.length).map (fun i => base + i + 1) := by
  rw [List.mapIdx_eq_enum_map, List.map_map]
  have e1 : (g ∘ Function.uncurry f) = fun q : Nat × α => base + q.1 + 1 :=
    funext fun q => h q.1 q.2
  have e2 : (fun q : Nat × α => base + q.1 + 1) = (fun i => base + i + 1) ∘ Prod.fst := rfl
  rw [e1, e2, ← List.map_map, List.enum_map_fst]

/-! ## Claim theorems -/

/-- C1: the review-to-execute transition is gated on the error count.
`handleNext` invokes `executeUpload` exactly when the summary's error
category count is 0; when it is nonzero the attempt is refused locally
and no network request is issued. -/
theorem C1_execute_gated_on_error_count (st : UploadState) :
    (st.summary.status.error = 0 →
        handleNext st = some (executeUploadRequest st)) ∧
    (st.summary.status.error ≠ 0 →
        handleNext st = none ∧ handleNextRequestCount st = 0) := by
  constructor
  · intro h
    simp [handleNext, canProceed, h]
  · intro h
    have hc : canProceed st = false := by simp [canProceed, h]
    refine ⟨?_, ?_⟩
    · simp [handleNext, hc]
    · simp [handleNextRequestCount, handleNext, hc]

/-- Witness for C1: with `error = 0` the execute request goes out; with
`error = 1` (scenario B) the attempt is refused with zero network
requests. -/
theorem C1_execute_gated_witness :
    handleNext cleanStateDemo = some (executeUploadRequest cleanStateDemo) ∧
    (handleNext errorStateDemo = none ∧ handleNextRequestCount errorStateDemo = 0) :=
  ⟨(C1_execute_gated_on_error_count cleanStateDemo).1 (by decide),
   (C1_execute_gated_on_error_count errorStateDemo).2 (by decide)⟩

/-- C2: for every attempt cap `maxAttempts ≥ 1` and every sequence of
observed statuses, both polling loops time out exactly when the first
`maxAttempts` observations are all non-terminal (issuing exactly
`maxAttempts` queries, never one more); on the first terminal
observation (position `i`, preceded by non-terminal ones) they stop
after `i + 1` queries, returning success on SUCCESS and throwing the
server-supplied detail (`res.error ?? 'Validation task failed'`) on
FAILURE, as captured by `terminalOutcome`; and the query count never
exceeds `maxAttempts`. -/
theorem C2_poller_terminal_and_timeout (observe : Nat → StatusResponse) (maxAttempts : Nat)
    (hmax : 1 ≤ maxAttempts) :
    ((∀ k, k < maxAttempts → isTerminalObs (observe k) = false) →
        pollValidationStatus observe maxAttempts = (PollOutcome.timeout, maxAttempts) ∧
        pollExecuteStatus observe maxAttempts = (PollOutcome.timeout, maxAttempts)) ∧
    (∀ i, i < maxAttempts →
        (∀ k, k < i → isTerminalObs (observe k) = false) →
        isTerminalObs (observe i) = true →
        pollValidationStatus observe maxAttempts = (terminalOutcome (observe i), i + 1) ∧
        pollExecuteStatus observe maxAttempts = (terminalOutcome (observe i), i + 1)) ∧
    (pollValidationStatus observe maxAttempts).2 ≤ maxAttempts ∧
    (pollExecuteStatus observe maxAttempts).2 ≤ maxAttempts := by
  have hto : (∀ k, k < maxAttempts → isTerminalObs (observe k) = false) →
      pollGo observe 0 maxAttempts = (PollOutcome.timeout, maxAttempts) := fun h =>
    pollGo_timeout observe maxAttempts 0 (fun k hk => by simpa using h k hk)
  have hfirst : ∀ i, i < maxAttempts →
      (∀ k, k < i → isTerminalObs (observe k) = false) →
      isTerminalObs (observe i) = true →
      pollGo observe 0 maxAttempts = (terminalOutcome (observe i), i + 1) := by
    intro i hi hb ht
    have := pollGo_first_terminal observe i maxAttempts 0 hi
      (fun k hk => by simpa using hb k hk) (by simpa using ht)
    simpa using this
  refine ⟨fun h => ⟨hto h, hto h⟩, fun i hi hb ht => ⟨hfirst i hi hb ht, hfirst i hi hb ht⟩,
    pollGo_queries_le observe maxAttempts 0, pollGo_queries_le observe maxAttempts 0⟩

/-- Witness for C2: two PENDING observations followed by SUCCESS, cap 3:
both loops return success after exactly 3 queries. -/
theorem C2_poller_witness :
    pollValidationStatus obsDemo 3 = (PollOutcome.success, 3) ∧
    pollExecuteStatus obsDemo 3 = (PollOutcome.success, 3) := by
  have h := (C2_poller_terminal_and_timeout obsDemo 3 (by decide)).2.1 2 (by decide)
    (by decide) (by decide)
  exact ⟨by rw [h.1]; rfl, by rw [h.2]; rfl⟩

/-- C3: the display row numbers assigned by `fetchValidationResults` and
`fetchUploadtResult` to a page of `n` rows fetched with page index `p`
and page size `s` are exactly `p*s+1, ..., p*s+n` in page order.  The
category filter only selects which response the server returns (the
response is universally quantified here) and does not enter the row
computation. -/
theorem C3_row_numbers_contiguous (st : UploadState) (p s : Nat)
    (vresp : ValidationResponse) (uresp : UploadResultResponse) :
    (fetchValidationResults st p s (Except.ok vresp)).1.validationResults.map
        (fun r => r.row)
      = (List.range vresp.results.length).map (fun i => p * s + i + 1) ∧
    ((fetchUploadtResult st p s (Except.ok uresp)).1.importResult).map
        (fun ir => ir.results.map (fun r => r.row))
      = some ((List.range uresp.results.length).map (fun i => p * s + i + 1)) := by
  constructor
  · exact mapIdx_map_row_eq_range (fun index item => mapValidationRow p s index item)
      (fun r => r.row) (p * s) (fun i a => rfl) vresp.results
  · have hres : (fetchUploadtResult st p s (Except.ok uresp)).1.importResult
        = some { results := uresp.results.mapIdx (fun index item => mapImportRow p s index item)
                 summary := importSummaryOf uresp.summary
                 fileInfo := uresp.fileInfo } := rfl
    rw [hres]
    simp only [Option.map_some']
    congr 1
    exact mapIdx_map_row_eq_range (fun index item => mapImportRow p s index item)
      (fun r => r.row) (p * s) (fun i a => rfl) uresp.results

/-- C4: the stored summary satisfies `total = create + update + delete +
skip + error` in the initial state, after `resetUpload`, and after every
(successful or failed) `fetchValidationResults` or `fetchUploadtResult`
call, for every server-reported per-category summary; for the stored
execution summary the error-category count is its `failed` field. -/
theorem C4_summary_total_invariant :
    stateSummaryOk initialUploadState ∧
    (∀ st, stateSummaryOk (resetUpload st)) ∧
    (∀ st p s resp, stateSummaryOk st →
        stateSummaryOk (fetchValidationResults st p s resp).1) ∧
    (∀ st p s resp, stateSummaryOk st →
        stateSummaryOk (fetchUploadtResult st p s resp).1) := by
  refine ⟨⟨rfl, fun ir h => nomatch h⟩, fun st => ⟨rfl, fun ir h => nomatch h⟩, ?_, ?_⟩
  · intro st p s resp hst
    cases resp with
    | error e => exact hst
    | ok r => exact ⟨rfl, fun ir h => hst.2 ir h⟩
  · intro st p s resp hst
    cases resp with
    | error e => exact hst
    | ok r =>
      refine ⟨hst.1, fun ir h => ?_⟩
      have h2 : ({ results := r.results.mapIdx (fun index item => mapImportRow p s index item)
                   summary := importSummaryOf r.summary
                   fileInfo := r.fileInfo } : ImportResultResponse) = ir :=
        Option.some.inj h
      rw [← h2]
      rfl

/-- Witness for C4: the invariant holds after a concrete successful
validation fetch from a state that satisfied it. -/
theorem C4_summary_total_witness :
    stateSummaryOk (fetchValidationResults cleanStateDemo 0 10
      (Except.ok demoValidationPayload)).1 :=
  (C4_summary_total_invariant).2.2.1 cleanStateDemo 0 10 (Except.ok demoValidationPayload)
    ⟨rfl, fun ir h => nomatch h⟩

/-- C5 (code bug): `selectAllMissingUsers` writes the `MissingUser`
objects themselves — not their ids — into the string-typed selection
array, so the selection is not a subset of the current orphan-user ids;
and a fetch that replaces the orphan collection leaves the stale
selection in place instead of emptying it. -/
theorem C5_selection_invariant_violated :
    (selectAllMissingUsers C5StateWithUsers).selectedMissingUsers
        = [SelEntry.user missingUserDemo] ∧
    ¬ selectionSubsetOfIds (selectAllMissingUsers C5StateWithUsers) ∧
    (fetchValidationResults C5StateWithSelection 0 10
        (Except.ok C5ReplacementPayload)).1.selectedMissingUsers = [SelEntry.str "u1"] ∧
    ¬ selectionSubsetOfIds (fetchValidationResults C5StateWithSelection 0 10
        (Except.ok C5ReplacementPayload)).1 := by
  refine ⟨rfl, ?_, rfl, ?_⟩ <;> decide

/-- C6: every category-filter change resets the page to the first one:
`toggleFilter` and `selectAllFilters` set `pagination.pageIndex` to 0
for every prior state and filter set, and the filter-select `onUpdated`
handler of `makeStatusFilters` writes page number 1 — the first page in
its 1-based `UPagination` numbering, i.e. page index 0. -/
theorem C6_filter_change_resets_page_index :
    (∀ st v, (toggleFilter st v).pagination.pageIndex = 0) ∧
    (∀ st, (selectAllFilters st).pagination.pageIndex = 0) ∧
    (∀ q values, (statusFilterOnUpdated q values).p = 1 ∧
        (statusFilterOnUpdated q values).p - 1 = 0) :=
  ⟨fun _ _ => rfl, fun _ => rfl, fun _ _ => ⟨rfl, rfl⟩⟩

/-- C7: a failed page fetch propagates the error to the caller and
leaves the whole state — in particular `validationResults`,
`MissingUsers`, `summary` and `importResult` — exactly as it was. -/
theorem C7_fetch_error_preserves_state (st : UploadState) (p s : Nat) (e : FetchError) :
    (fetchValidationResults st p s (Except.error e)).1 = st ∧
    (fetchValidationResults st p s (Except.error e)).2 = Except.error e ∧
    (fetchUploadtResult st p s (Except.error e)).1 = st ∧
    (fetchUploadtResult st p s (Except.error e)).2 = Except.error e ∧
    (fetchValidationResults st p s (Except.error e)).1.validationResults
        = st.validationResults ∧
    (fetchValidationResults st p s (Except.error e)).1.MissingUsers = st.MissingUsers ∧
    (fetchValidationResults st p s (Except.error e)).1.summary = st.summary ∧
    (fetchUploadtResult st p s (Except.error e)).1.importResult = st.importResult :=
  ⟨rfl, rfl, rfl, rfl, rfl, rfl, rfl, rfl⟩

/-- C8 (code bug): the polling loops have no cancellation input at all —
their behavior is a function of the observed statuses and the attempt
cap only.  Against an endpoint that stays PENDING, both loops issue one
query per attempt until the cap (100 in the source) regardless of any
abandonment by the invoking context. -/
theorem C8_poll_ignores_abandonment :
    pollValidationStatus pendingForever sourceMaxAttempts = (PollOutcome.timeout, 100) ∧
    pollExecuteStatus pendingForever sourceMaxAttempts = (PollOutcome.timeout, 100) ∧
    (∀ n, pollValidationStatus pendingForever n = (PollOutcome.timeout, n)) ∧
    (∀ n, pollExecuteStatus pendingForever n = (PollOutcome.timeout, n)) := by
  have hall : ∀ n, pollGo pendingForever 0 n = (PollOutcome.timeout, n) := by
    intro n
    exact pollGo_timeout pendingForever n 0 (fun k _ => rfl)
  exact ⟨hall 100, hall 100, hall, hall⟩

/-- C9: when the server omits a numeric pagination total, both history
fetchers fall back to `computeEffectiveTotal`, which is
`(currentPage - 1) * itemsPerPage + itemsLength` plus 1 exactly when
`itemsPerPage === itemsLength`; hence on every full page the reported
total strictly exceeds the items observed so far. -/
theorem C9_effective_total_fallback (currentPage itemsPerPage : Int)
    (dl : DownloadApiModel) (ul : UploadApiModel)
    (hdl : serverTotal dl.pagination = none)
    (hul : serverTotal ul.pagination = none) :
    fetchDownloadHistoryTotalItems dl currentPage itemsPerPage
      = (currentPage - 1) * itemsPerPage + ((downloadGroupsOf dl).length : Int)
        + (if itemsPerPage = ((downloadGroupsOf dl).length : Int) then 1 else 0) ∧
    fetchUploadHistoryTotalItems ul currentPage itemsPerPage
      = (currentPage - 1) * itemsPerPage + ((uploadRowsOf ul).length : Int)
        + (if itemsPerPage = ((uploadRowsOf ul).length : Int) then 1 else 0) ∧
    (∀ itemsLength : Int, itemsLength = itemsPerPage →
        computeEffectiveTotal itemsLength currentPage itemsPerPage
          > (currentPage - 1) * itemsPerPage + itemsLength) := by
  refine ⟨?_, ?_, ?_⟩
  · simp only [fetchDownloadHistoryTotalItems, hdl, computeEffectiveTotal]
  · simp only [fetchUploadHistoryTotalItems, hul, computeEffectiveTotal]
  · intro itemsLength h
    have e : computeEffectiveTotal itemsLength currentPage itemsPerPage
        = (currentPage - 1) * itemsPerPage + itemsLength + 1 := by
      simp [computeEffectiveTotal, h]
    rw [e]
    exact lt_add_one _

/-- Witness for C9: a full page of 2 rows at page 3 with page size 2 and
no server total yields 7, one more than the 6 items observed so far. -/
theorem C9_effective_total_witness :
    fetchDownloadHistoryTotalItems downloadPayloadDemo 3 2 = 7 ∧
    fetchUploadHistoryTotalItems uploadPayloadDemo 3 2 = 7 ∧
    computeEffectiveTotal 2 3 2 > (3 - 1) * 2 + 2 := by
  have h := C9_effective_total_fallback 3 2 downloadPayloadDemo uploadPayloadDemo rfl rfl
  exact ⟨by rw [h.1]; decide, by rw [h.2.1]; decide, h.2.2 2 rfl⟩

/-- C10: after every successful `fetchUploadtResult`, the stored
execution summary satisfies `success = create + update + delete`,
`failed = error` (the server's error-category count), and
`total = success + failed + skip`. -/
theorem C10_execution_summary_decomposition (st : UploadState) (p s : Nat)
    (payload : UploadResultResponse) :
    ∃ ir, (fetchUploadtResult st p s (Except.ok payload)).1.importResult = some ir ∧
      ir.summary.success = ir.summary.create + ir.summary.update + ir.summary.delete ∧
      ir.summary.failed = payload.summary.error ∧
      ir.summary.total = ir.summary.success + ir.summary.failed + ir.summary.skip := by
  refine ⟨{ results := payload.results.mapIdx (fun index item => mapImportRow p s index item)
            summary := importSummaryOf payload.summary
            fileInfo := payload.fileInfo }, rfl, rfl, rfl, ?_⟩
  show payload.summary.create + payload.summary.update + payload.summary.delete
        + payload.summary.skip + payload.summary.error
      = payload.summary.create + payload.summary.update + payload.summary.delete
        + payload.summary.error + payload.summary.skip
  omega

end JGM
